import Mathlib

/-!
Shallow embedding of the spaCy NLP gateway service (`src/main.py`).

The service wraps an external NLP engine (spaCy) behind five HTTP handlers:
`/ner`, `/pos`, `/similarity`, `/basic-analysis` and `/dependency-parse`.
The engine itself is a third-party collaborator reachable only through
`nlp(text)`; it is modelled here as an abstract `Engine` value producing a
`Doc` per input text, together with a well-formedness predicate `Doc.WF`
capturing the documented guarantees of the engine's output (entity char
offsets index into the original text, token texts are contiguous substrings,
dependency heads are valid token references, an empty input produces an
empty document, and a single-sentence parse has exactly one root token).
The five handler bodies are translated directly from `src/main.py`.
-/

/-- An entity span as exposed by the engine on `doc.ents` (spaCy `Span`):
surface text, category label (`label_`), and 0-based character offsets
(`start_char`, `end_char`) into the original input text. -/
structure Ent where
  text : String
  label_ : String
  start_char : Nat
  end_char : Nat
  deriving Repr, DecidableEq, Inhabited

/-- A token as exposed by the engine when iterating a document (spaCy
`Token`): surface text, coarse part of speech (`pos_`), fine-grained tag
(`tag_`), dependency label (`dep_`), lemma (`lemma_`), and the syntactic
head. In spaCy `token.head` is itself a token of the same document; it is
modelled as the index of that token, with the sentence root having itself
as head. -/
structure Tok where
  text : String
  pos_ : String
  tag_ : String
  dep_ : String
  lemma_ : String
  head : Nat
  deriving Repr, DecidableEq, Inhabited

/-- The engine's result for one input text (spaCy `Doc`): the token
sequence (iterating the doc), entity spans (`doc.ents`), sentence spans as
their surface strings (`doc.sents`), and noun-chunk spans as their surface
strings (`doc.noun_chunks`). -/
structure Doc where
  tokens : List Tok
  ents : List Ent
  sents : List String
  noun_chunks : List String
  deriving Repr, DecidableEq, Inhabited

/-- The document produced for an empty input: no tokens, entities,
sentences or noun chunks. -/
def Doc.empty : Doc :=
  { tokens := [], ents := [], sents := [], noun_chunks := [] }

/-- The external NLP engine: `process` is the pipeline call `nlp(text)`;
`similarity` is `doc1.similarity(doc2)`. -/
structure Engine where
  process : String → Doc
  similarity : Doc → Doc → Float

/-- Python-style character slice `s[a:b]` for `0 ≤ a ≤ b ≤ len(s)`:
the characters of `s` from position `a` (inclusive) to `b` (exclusive). -/
def sliceChars (s : String) (a b : Nat) : String :=
  String.mk ((s.data.drop a).take (b - a))

/-- Number of tokens of a document that are their own syntactic head
(the sentence roots). -/
def Doc.rootCount (doc : Doc) : Nat :=
  doc.tokens.enum.countP (fun p => p.2.head == p.1)

/-- Documented guarantees of the engine's output for a given input text:
entity offsets satisfy `start_char ≤ end_char ≤ length` and slice back to
the entity's surface text; every token's text is a contiguous substring of
the input and its head is a valid token index; an empty input yields an
empty document; a single-sentence parse has exactly one root token. -/
def Doc.WF (text : String) (doc : Doc) : Prop :=
  (∀ e ∈ doc.ents,
      e.start_char ≤ e.end_char ∧ e.end_char ≤ text.length ∧
      sliceChars text e.start_char e.end_char = e.text) ∧
  (∀ t ∈ doc.tokens, t.text.data <:+: text.data ∧ t.head < doc.tokens.length) ∧
  (text = "" → doc = Doc.empty) ∧
  (doc.sents.length = 1 → doc.rootCount = 1)

instance (text : String) (doc : Doc) : Decidable (Doc.WF text doc) := by
  unfold Doc.WF
  exact inferInstance

/-- Request body of `/ner`, `/pos`, `/basic-analysis`, `/dependency-parse`. -/
structure TextRequest where
  text : String
  deriving Repr, DecidableEq

/-- Request body of `/similarity`. -/
structure TextsRequest where
  texts : List String
  deriving Repr, DecidableEq

/-- Response record for one detected entity (pydantic `Entity`). -/
structure Entity where
  text : String
  label : String
  start : Nat
  «end» : Nat
  deriving Repr, DecidableEq

/-- Response record for one token (pydantic `Token`). -/
structure Token where
  text : String
  pos : String
  tag : String
  dep : String
  «lemma» : String
  deriving Repr, DecidableEq

/-- Response body of `/ner`. -/
structure NERResponse where
  entities : List Entity
  deriving Repr, DecidableEq

/-- Response body of `/pos`. -/
structure POSResponse where
  tokens : List Token
  deriving Repr, DecidableEq

/-- Response body of `/similarity`. -/
structure SimilarityResponse where
  similarity : Float
  deriving Repr

/-- A FastAPI `HTTPException`: HTTP status code and detail message. -/
structure HTTPException where
  status_code : Nat
  detail : String
  deriving Repr, DecidableEq

/-- Response body of `/basic-analysis` (an untyped dict in the source,
with these four keys). -/
structure BasicAnalysisResponse where
  tokens : List String
  lemmas : List String
  sentences : List String
  noun_phrases : List String
  deriving Repr, DecidableEq

/-- One element of the `dependencies` list of `/dependency-parse`. -/
structure DependencyRecord where
  token : String
  dep : String
  head : String
  children : List String
  deriving Repr, DecidableEq

/-- Response body of `/dependency-parse`. -/
structure DependencyParseResponse where
  dependencies : List DependencyRecord
  deriving Repr, DecidableEq

/-- Handler of `POST /ner` (`named_entity_recognition` in `src/main.py`):
processes the text and projects each entity of `doc.ents` to an `Entity`
record. -/
def named_entity_recognition (nlp : Engine) (request : TextRequest) : NERResponse :=
  let doc := nlp.process request.text
  { entities :=
      doc.ents.map fun ent =>
        { text := ent.text
          label := ent.label_
          start := ent.start_char
          «end» := ent.end_char } }

/-- Handler of `POST /pos` (`parts_of_speech` in `src/main.py`): processes
the text and projects each token of the document to a `Token` record. -/
def parts_of_speech (nlp : Engine) (request : TextRequest) : POSResponse :=
  let doc := nlp.process request.text
  { tokens :=
      doc.tokens.map fun token =>
        { text := token.text
          pos := token.pos_
          tag := token.tag_
          dep := token.dep_
          «lemma» := token.lemma_ } }

/-- Handler of `POST /similarity` (`text_similarity` in `src/main.py`):
raises a 400 `HTTPException` when the list does not hold exactly two
texts, otherwise processes both texts and returns their similarity. -/
def text_similarity (nlp : Engine) (request : TextsRequest) :
    Except HTTPException SimilarityResponse :=
  if request.texts.length ≠ 2 then
    .error
      { status_code := 400
        detail := "Exactly two texts must be provided for similarity comparison" }
  else
    let doc1 := nlp.process (request.texts.getD 0 "")
    let doc2 := nlp.process (request.texts.getD 1 "")
    .ok { similarity := nlp.similarity doc1 doc2 }

/-- Handler of `POST /basic-analysis` (`basic_analysis` in `src/main.py`):
token surface forms, per-token lemmas, sentence strings and noun-chunk
strings of the processed document. -/
def basic_analysis (nlp : Engine) (request : TextRequest) : BasicAnalysisResponse :=
  let doc := nlp.process request.text
  { tokens := doc.tokens.map (fun token => token.text)
    lemmas := doc.tokens.map (fun token => token.lemma_)
    sentences := doc.sents
    noun_phrases := doc.noun_chunks }

/-- Surface texts of the direct syntactic children of token `i`, in
document order (spaCy `token.children`): the tokens whose head is `i`,
excluding `i` itself (the root is its own head but not its own child). -/
def Doc.childTexts (doc : Doc) (i : Nat) : List String :=
  (doc.tokens.enum.filter fun q => q.2.head == i && q.1 != i).map fun q => q.2.text

/-- Handler of `POST /dependency-parse` (`dependency_parse` in
`src/main.py`): for each token, its text, dependency label, the surface
text of its head token (`token.head.text`), and the surface texts of its
children. -/
def dependency_parse (nlp : Engine) (request : TextRequest) : DependencyParseResponse :=
  let doc := nlp.process request.text
  { dependencies :=
      doc.tokens.enum.map fun p =>
        { token := p.2.text
          dep := p.2.dep_
          head := (doc.tokens.getD p.2.head default).text
          children := doc.childTexts p.1 } }

/-- An ASCII single-quote character, used to spell the startup error
message without a quote escape. -/
def squote : Char := Char.ofNat 39

/-- The `RuntimeError` message raised at import time when the spaCy model
cannot be loaded. -/
def modelNotFoundDetail : String :=
  "Spacy model " ++ squote.toString ++ "en_core_web_sm" ++ squote.toString ++
    " not found. Please install it by running: python -m spacy download en_core_web_sm"

/-- Outcome of process startup: either the process is serving requests
with a loaded engine, or it died during import with an error message. -/
inductive ProcessStatus where
  | serving (nlp : Engine)
  | failedStartup (msg : String)

/-- The module-level load in `src/main.py`: `spacy.load("en_core_web_sm")`
runs once at import; on `OSError` (modelled as the `error` case of the
load result) a `RuntimeError` is raised and the process never starts
serving. -/
def startProcess (spacyLoad : Except Unit Engine) : ProcessStatus :=
  match spacyLoad with
  | .ok m => .serving m
  | .error _ => .failedStartup modelNotFoundDetail

/-- A request to any of the five routes. -/
inductive Request where
  | ner (r : TextRequest)
  | pos (r : TextRequest)
  | similarity (r : TextsRequest)
  | basicAnalysis (r : TextRequest)
  | dependencyParse (r : TextRequest)

/-- A success response from any of the five routes. -/
inductive Response where
  | ner (r : NERResponse)
  | pos (r : POSResponse)
  | similarity (r : SimilarityResponse)
  | basicAnalysis (r : BasicAnalysisResponse)
  | dependencyParse (r : DependencyParseResponse)

/-- The process-wide state visible to the handlers: just the engine loaded
at startup (`nlp` is the only module-level value the handlers read, and
none of them assigns to it). -/
structure ServerState where
  nlp : Engine

/-- Dispatch one request to its handler. Each handler returns the state it
was given (no handler writes process-wide state); only `/similarity` can
produce an `HTTPException`. -/
def handle (s : ServerState) (req : Request) : ServerState × Except HTTPException Response :=
  match req with
  | .ner r => (s, .ok (.ner (named_entity_recognition s.nlp r)))
  | .pos r => (s, .ok (.pos (parts_of_speech s.nlp r)))
  | .similarity r => (s, (text_similarity s.nlp r).map .similarity)
  | .basicAnalysis r => (s, .ok (.basicAnalysis (basic_analysis s.nlp r)))
  | .dependencyParse r => (s, .ok (.dependencyParse (dependency_parse s.nlp r)))

/-- Server state after handling a sequence of requests in order. -/
def runServer (s : ServerState) (reqs : List Request) : ServerState :=
  reqs.foldl (fun st req => (handle st req).1) s

/-- A trivial engine whose pipeline returns the empty document for every
input. -/
def emptyEngine : Engine :=
  { process := fun _ => Doc.empty
    similarity := fun _ _ => 1.0 }

/-- A concrete engine output for the input `"Apple rocks"`: two tokens
headed by the verb, one organization entity, one sentence, one noun
chunk. -/
def appleDoc : Doc :=
  { tokens :=
      [{ text := "Apple", pos_ := "PROPN", tag_ := "NNP", dep_ := "nsubj",
         lemma_ := "Apple", head := 1 },
       { text := "rocks", pos_ := "VERB", tag_ := "VBZ", dep_ := "ROOT",
         lemma_ := "rock", head := 1 }]
    ents := [{ text := "Apple", label_ := "ORG", start_char := 0, end_char := 5 }]
    sents := ["Apple rocks"]
    noun_chunks := ["Apple"] }

/-- An engine returning `appleDoc` for every input; well formed on the
input `"Apple rocks"`. -/
def appleEngine : Engine :=
  { process := fun _ => appleDoc
    similarity := fun _ _ => 1.0 }

/-- A concrete engine output for the input `"bear bear"`: two tokens with
the same surface text, the second being the root and the head of the
first; a single sentence. -/
def bearDoc : Doc :=
  { tokens :=
      [{ text := "bear", pos_ := "NOUN", tag_ := "NN", dep_ := "compound",
         lemma_ := "bear", head := 1 },
       { text := "bear", pos_ := "NOUN", tag_ := "NN", dep_ := "ROOT",
         lemma_ := "bear", head := 1 }]
    ents := []
    sents := ["bear bear"]
    noun_chunks := ["bear bear"] }

/-- An engine returning `bearDoc` for every input; well formed on the
input `"bear bear"`. -/
def bearEngine : Engine :=
  { process := fun _ => bearDoc
    similarity := fun _ _ => 1.0 }

/-- Mapping over the second components of an enumerated list is mapping
over the list itself. -/
lemma enum_map_snd_comp {α β : Type} (l : List α) (f : α → β) :
    l.enum.map (fun q => f q.2) = l.map f := by
  conv_rhs => rw [← List.enum_map_snd l]
  rw [List.map_map]
  rfl

/-- A member of an enumerated list is its component at its own index. -/
lemma enum_mem_spec {α : Type} {l : List α} {q : Nat × α} (hq : q ∈ l.enum) :
    ∃ h : q.1 < l.length, l.get ⟨q.1, h⟩ = q.2 := by
  rw [List.mem_enum_iff_getElem?] at hq
  obtain ⟨h, hg⟩ := List.getElem?_eq_some.mp hq
  exact ⟨h, hg⟩

/-- Claim C1: the `/similarity` handler fails with a 400 error carrying
exactly the message "Exactly two texts must be provided for similarity
comparison" if and only if the request's `texts` list has length different
from 2; with exactly two texts (any two strings) it returns a
`SimilarityResponse` holding a float score. -/
theorem text_similarity_length_check (nlp : Engine) (request : TextsRequest) :
    (request.texts.length ≠ 2 →
      text_similarity nlp request = .error
        { status_code := 400
          detail := "Exactly two texts must be provided for similarity comparison" }) ∧
    (request.texts.length = 2 →
      ∃ score : Float, text_similarity nlp request = .ok { similarity := score }) := by
  constructor
  · intro h
    simp [text_similarity, h]
  · intro h
    refine ⟨nlp.similarity (nlp.process (request.texts.getD 0 ""))
      (nlp.process (request.texts.getD 1 "")), ?_⟩
    simp [text_similarity, h]

/-- Witness for C1: with one text the handler produces exactly the 400
error, with two identical texts it succeeds. -/
theorem text_similarity_length_check_witness :
    text_similarity emptyEngine { texts := ["a"] } = .error
      { status_code := 400
        detail := "Exactly two texts must be provided for similarity comparison" } ∧
    (text_similarity emptyEngine { texts := ["a", "a"] }).isOk = true := by
  refine ⟨(text_similarity_length_check emptyEngine { texts := ["a"] }).1 (by decide), ?_⟩
  obtain ⟨score, hs⟩ :=
    (text_similarity_length_check emptyEngine { texts := ["a", "a"] }).2 rfl
  rw [hs]
  rfl

/-- Claim C2: `/ner` returns one `Entity` per entity of the engine's
document, in the engine's order, carrying the entity's surface text,
label, and character offsets; the empty input yields an empty entity
list. -/
theorem named_entity_recognition_projection (nlp : Engine) (request : TextRequest)
    (hwf : Doc.WF request.text (nlp.process request.text)) :
    (named_entity_recognition nlp request).entities.length =
      (nlp.process request.text).ents.length ∧
    (named_entity_recognition nlp request).entities =
      (nlp.process request.text).ents.map (fun ent =>
        { text := ent.text, label := ent.label_,
          start := ent.start_char, «end» := ent.end_char }) ∧
    (request.text = "" → (named_entity_recognition nlp request).entities = []) := by
  refine ⟨by simp [named_entity_recognition], rfl, ?_⟩
  intro hempty
  have hdoc : nlp.process request.text = Doc.empty := hwf.2.2.1 hempty
  simp [named_entity_recognition, hdoc, Doc.empty]

/-- Witness for C2: a concrete engine and request on which the `/ner`
projection facts hold. -/
theorem named_entity_recognition_projection_witness :
    (named_entity_recognition appleEngine { text := "Apple rocks" }).entities.length =
      (appleEngine.process "Apple rocks").ents.length :=
  (named_entity_recognition_projection appleEngine { text := "Apple rocks" } (by decide)).1

/-- Claim C3: `/pos` returns as many `Token` records as the engine has
tokens, in document order (surface texts agree position by position), and
every returned token text is a contiguous substring of the input. -/
theorem parts_of_speech_tokens_faithful (nlp : Engine) (request : TextRequest)
    (hwf : Doc.WF request.text (nlp.process request.text)) :
    (parts_of_speech nlp request).tokens.length =
      (nlp.process request.text).tokens.length ∧
    (parts_of_speech nlp request).tokens.map Token.text =
      (nlp.process request.text).tokens.map Tok.text ∧
    (∀ tok ∈ (parts_of_speech nlp request).tokens,
      tok.text.data <:+: request.text.data) := by
  refine ⟨by simp [parts_of_speech], by simp [parts_of_speech, List.map_map], ?_⟩
  intro tok htok
  simp only [parts_of_speech, List.mem_map] at htok
  obtain ⟨t, ht, rfl⟩ := htok
  exact (hwf.2.1 t ht).1

/-- Witness for C3: the `/pos` facts instantiated on a concrete engine and
request, specialised to the first returned token. -/
theorem parts_of_speech_tokens_faithful_witness :
    (parts_of_speech appleEngine { text := "Apple rocks" }).tokens.length =
      (appleEngine.process "Apple rocks").tokens.length ∧
    "Apple".data <:+: "Apple rocks".data := by
  have h := parts_of_speech_tokens_faithful appleEngine { text := "Apple rocks" } (by decide)
  refine ⟨h.1, ?_⟩
  have h2 := h.2.2
    { text := "Apple", pos := "PROPN", tag := "NNP", dep := "nsubj", «lemma» := "Apple" }
    (by decide)
  exact h2

/-- Claim C4: every entity returned by `/ner` has offsets satisfying
`0 ≤ start ≤ end ≤ length(text)`, and slicing the original input text
from `start` to `end` gives back the entity's surface text. -/
theorem ner_offsets_index_text (nlp : Engine) (request : TextRequest)
    (hwf : Doc.WF request.text (nlp.process request.text)) :
    ∀ ent ∈ (named_entity_recognition nlp request).entities,
      ent.start ≤ ent.«end» ∧ ent.«end» ≤ request.text.length ∧
      sliceChars request.text ent.start ent.«end» = ent.text := by
  intro ent hent
  simp only [named_entity_recognition, List.mem_map] at hent
  obtain ⟨e, he, rfl⟩ := hent
  exact hwf.1 e he

/-- Witness for C4: the offset facts for the concrete entity returned by a
concrete engine. -/
theorem ner_offsets_index_text_witness :
    (0 : Nat) ≤ 5 ∧ 5 ≤ ("Apple rocks" : String).length ∧
    sliceChars "Apple rocks" 0 5 = "Apple" := by
  have h := ner_offsets_index_text appleEngine { text := "Apple rocks" } (by decide)
    { text := "Apple", label := "ORG", start := 0, «end» := 5 } (by decide)
  exact h

/-- Claim C5: `/basic-analysis` on the empty string returns empty
sequences for all four fields. -/
theorem basic_analysis_empty_input (nlp : Engine) (request : TextRequest)
    (hwf : Doc.WF request.text (nlp.process request.text))
    (hempty : request.text = "") :
    (basic_analysis nlp request).tokens = [] ∧
    (basic_analysis nlp request).lemmas = [] ∧
    (basic_analysis nlp request).sentences = [] ∧
    (basic_analysis nlp request).noun_phrases = [] := by
  have hdoc : nlp.process request.text = Doc.empty := hwf.2.2.1 hempty
  simp [basic_analysis, hdoc, Doc.empty]

/-- Witness for C5: a concrete engine whose empty-input document is empty,
on the empty request. -/
theorem basic_analysis_empty_input_witness :
    (basic_analysis emptyEngine { text := "" }).tokens = [] ∧
    (basic_analysis emptyEngine { text := "" }).lemmas = [] ∧
    (basic_analysis emptyEngine { text := "" }).sentences = [] ∧
    (basic_analysis emptyEngine { text := "" }).noun_phrases = [] :=
  basic_analysis_empty_input emptyEngine { text := "" } (by decide) rfl

/-- On a token list with valid head indices and pairwise distinct surface
texts, a record's head text matches its own text exactly when the token is
its own head. -/
lemma countP_head_text_eq_rootCount (l : List Tok)
    (hh : ∀ t ∈ l, t.head < l.length)
    (hnodup : (l.map Tok.text).Nodup) :
    (l.enum.countP fun q => (l.getD q.2.head default).text == q.2.text) =
      (l.enum.countP fun q => q.2.head == q.1) := by
  apply List.countP_congr
  intro q hq
  obtain ⟨hlt, hget⟩ := enum_mem_spec hq
  have hmem : q.2 ∈ l := hget ▸ List.get_mem l q.1 hlt
  have hhead : q.2.head < l.length := hh q.2 hmem
  have hgetD : l.getD q.2.head default = l.get ⟨q.2.head, hhead⟩ := by
    simp [List.getD_eq_getElem?_getD, List.getElem?_eq_getElem hhead, List.get_eq_getElem]
  rw [hgetD]
  simp only [beq_iff_eq]
  constructor
  · intro heq
    have heq2 : (l.get ⟨q.2.head, hhead⟩).text = (l.get ⟨q.1, hlt⟩).text := by
      rw [hget]
      exact heq
    have h1 : (l.map Tok.text).get ⟨q.2.head, by simpa using hhead⟩ =
        (l.map Tok.text).get ⟨q.1, by simpa using hlt⟩ := by
      simp only [List.get_eq_getElem, List.getElem_map]
      simpa [List.get_eq_getElem] using heq2
    exact congrArg Fin.val ((List.Nodup.get_inj_iff hnodup).mp h1)
  · intro heq
    have hsame : l.get ⟨q.2.head, hhead⟩ = l.get ⟨q.1, hlt⟩ := by
      simp only [heq]
    rw [hsame, hget]

/-- Claim C6 fails as stated: a well-formed single-sentence parse in which
a non-root token's head carries the same surface text as the token itself
("bear bear", compound noun headed by the root noun) makes
`/dependency-parse` return two records whose `head` equals their own
`token`, not exactly one. -/
theorem dependency_parse_self_head_counterexample :
    Doc.WF "bear bear" (bearEngine.process "bear bear") ∧
    (bearEngine.process "bear bear").sents.length = 1 ∧
    ((dependency_parse bearEngine { text := "bear bear" }).dependencies.countP
      (fun r => r.head == r.token)) = 2 := by
  refine ⟨by decide, by decide, by decide⟩

/-- Claim C6 (amended): on a single-sentence input whose token surface
texts are pairwise distinct, `/dependency-parse` returns exactly one
record whose `head` field equals its own `token` field (the syntactic
root). -/
theorem dependency_parse_unique_root (nlp : Engine) (request : TextRequest)
    (hwf : Doc.WF request.text (nlp.process request.text))
    (hsent : (nlp.process request.text).sents.length = 1)
    (hnodup : ((nlp.process request.text).tokens.map Tok.text).Nodup) :
    ((dependency_parse nlp request).dependencies.countP
      (fun r => r.head == r.token)) = 1 := by
  simp only [Doc.WF] at hwf
  obtain ⟨-, htok, -, hroot⟩ := hwf
  have hc := hroot hsent
  simp only [Doc.rootCount] at hc
  simp only [dependency_parse, List.countP_map]
  have heq := countP_head_text_eq_rootCount (nlp.process request.text).tokens
    (fun t ht => (htok t ht).2) hnodup
  rw [← hc]
  rw [← heq]
  rfl

/-- Witness for the amended C6: on a concrete single-sentence parse with
distinct token texts, exactly one returned record is its own head. -/
theorem dependency_parse_unique_root_witness :
    ((dependency_parse appleEngine { text := "Apple rocks" }).dependencies.countP
      (fun r => r.head == r.token)) = 1 :=
  dependency_parse_unique_root appleEngine { text := "Apple rocks" }
    (by decide) (by decide) (by decide)

/-- Dispatching a request never changes the server state: no handler
writes to the process-wide engine. -/
lemma handle_fst (s : ServerState) (req : Request) : (handle s req).1 = s := by
  cases req <;> rfl

/-- Handling any sequence of requests leaves the server state unchanged. -/
lemma runServer_fixed (s : ServerState) (reqs : List Request) :
    runServer s reqs = s := by
  induction reqs generalizing s with
  | nil => rfl
  | cons r rs ih =>
    show runServer (handle s r).1 rs = s
    rw [handle_fst]
    exact ih s

/-- Claim C7: the engine is loaded once at startup; when the load fails
the process dies with the model-not-found error and never serves, when it
succeeds the process serves with the loaded engine; and no per-request
error ever carries the model-not-found message (model absence is not a
per-request condition). -/
theorem startup_model_check (spacyLoad : Except Unit Engine) :
    (spacyLoad.isOk = false →
      startProcess spacyLoad = ProcessStatus.failedStartup modelNotFoundDetail) ∧
    (∀ m : Engine, spacyLoad = Except.ok m →
      startProcess spacyLoad = ProcessStatus.serving m) ∧
    (∀ s : ServerState, ∀ req : Request, ∀ e : HTTPException,
      (handle s req).2 = Except.error e → e.detail ≠ modelNotFoundDetail) := by
  refine ⟨?_, ?_, ?_⟩
  · intro h
    cases spacyLoad with
    | ok m => simp [Except.isOk, Except.toBool] at h
    | error u => rfl
  · intro m hm
    rw [hm]
    rfl
  · intro s req e herr
    cases req with
    | similarity r =>
      simp only [handle] at herr
      by_cases h : r.texts.length = 2
      · simp [text_similarity, h, Except.map] at herr
      · simp only [text_similarity, if_pos h, Except.map] at herr
        cases herr
        decide
    | ner r => simp [handle] at herr
    | pos r => simp [handle] at herr
    | basicAnalysis r => simp [handle] at herr
    | dependencyParse r => simp [handle] at herr

/-- Witness for C7: the two startup outcomes at concrete load results, and
a concrete request error that is not the model message. -/
theorem startup_model_check_witness :
    startProcess (Except.error ()) = ProcessStatus.failedStartup modelNotFoundDetail ∧
    startProcess (Except.ok emptyEngine) = ProcessStatus.serving emptyEngine := by
  refine ⟨(startup_model_check (Except.error ())).1 rfl, ?_⟩
  exact (startup_model_check (Except.ok emptyEngine)).2.1 emptyEngine rfl

/-- Claim C8: handlers are stateless: handling any sequence of prior
requests leaves the process state unchanged, so the response to a request
is the same whether it comes first or after any other requests. -/
theorem handlers_stateless (s : ServerState) (prior : List Request) (req : Request) :
    runServer s prior = s ∧
    (handle (runServer s prior) req).2 = (handle s req).2 := by
  refine ⟨runServer_fixed s prior, ?_⟩
  rw [runServer_fixed]

/-- Claim C9: the per-token sequences of `/pos`, `/basic-analysis` and
`/dependency-parse` all have one element per engine token, and the token
surface texts agree position by position across the three operations. -/
theorem token_sequences_agree (nlp : Engine) (request : TextRequest) :
    (parts_of_speech nlp request).tokens.length =
      (nlp.process request.text).tokens.length ∧
    (basic_analysis nlp request).tokens.length =
      (nlp.process request.text).tokens.length ∧
    (basic_analysis nlp request).lemmas.length =
      (nlp.process request.text).tokens.length ∧
    (dependency_parse nlp request).dependencies.length =
      (nlp.process request.text).tokens.length ∧
    (parts_of_speech nlp request).tokens.map Token.text =
      (basic_analysis nlp request).tokens ∧
    (dependency_parse nlp request).dependencies.map DependencyRecord.token =
      (basic_analysis nlp request).tokens := by
  refine ⟨by simp [parts_of_speech], by simp [basic_analysis],
    by simp [basic_analysis], by simp [dependency_parse, List.enum_length],
    by simp [parts_of_speech, basic_analysis, List.map_map], ?_⟩
  simp only [dependency_parse, basic_analysis, List.map_map]
  exact enum_map_snd_comp (nlp.process request.text).tokens (fun t => t.text)

/-- Claim C10: the four single-text operations are total and never produce
a client error; a dispatched request fails exactly when it is a
`/similarity` request whose `texts` list does not have length 2. -/
theorem only_similarity_rejects (s : ServerState) (req : Request) :
    (handle s req).2.isOk = false ↔
      ∃ r : TextsRequest, req = Request.similarity r ∧ r.texts.length ≠ 2 := by
  cases req with
  | ner r => simp [handle, Except.isOk, Except.toBool]
  | pos r => simp [handle, Except.isOk, Except.toBool]
  | basicAnalysis r => simp [handle, Except.isOk, Except.toBool]
  | dependencyParse r => simp [handle, Except.isOk, Except.toBool]
  | similarity r =>
    by_cases h : r.texts.length = 2
    · simp [handle, text_similarity, h, Except.map, Except.isOk, Except.toBool]
    · simp only [handle, text_similarity, if_pos h, Except.map, Except.isOk, Except.toBool]
      constructor
      · intro _
        exact ⟨r, rfl, h⟩
      · intro _
        trivial
